import Mathlib

/-!
Verification of the lead-generation backend (`lead_api.py`) against its
natural-language specification.

The repository is a single FastAPI endpoint that
1. retrieves web-search results (Tavily) and formats them into a text blob
   (`Scrap_News`),
2. sends the blob to an LLM (Groq) and parses the reply into a JSON array of
   leads (`ExtractContent`),
3. assigns ids and wraps everything into a response envelope (`search`).

The two network calls are external: their outputs (the Tavily result list and
the LLM reply text) are inputs of the model (`World`).  Everything the
repository computes from those inputs — the blob formatting, the
bracket-recovery + JSON parsing of the LLM reply, truthiness/len checks,
the id-assignment loop, HTTP status/detail selection, and the printed
diagnostics — is embedded below as executable Lean functions.

Python JSON values are modelled by the inductive `Json`; `json_loads` models
`json.loads` (strict mode: JSON whitespace, no raw control characters in
strings, number grammar as in the `json` module; numbers are kept as their
raw lexeme since no code of the repository looks at a numeric value; the
non-standard `NaN/Infinity` extensions are not modelled, no input here uses
them).
-/

/-- Model of a parsed Python JSON value (the result of `json.loads`).
Objects are insertion-ordered key/value lists, as Python dicts are; the
parser collapses duplicate keys like Python does (last value wins, first
position kept). -/
inductive Json where
  | null : Json
  | bool : Bool → Json
  | num : String → Json
  | str : String → Json
  | arr : List Json → Json
  | obj : List (String × Json) → Json

mutual
/-- Model of Python `==` on parsed JSON values (used by `in` on lists). -/
def Json.beq : Json → Json → Bool
  | .null, .null => true
  | .bool a, .bool b => a == b
  | .num a, .num b => a == b
  | .str a, .str b => a == b
  | .arr xs, .arr ys => Json.beqList xs ys
  | .obj xs, .obj ys => Json.beqFields xs ys
  | _, _ => false

def Json.beqList : List Json → List Json → Bool
  | [], [] => true
  | x :: xs, y :: ys => Json.beq x y && Json.beqList xs ys
  | _, _ => false

def Json.beqFields : List (String × Json) → List (String × Json) → Bool
  | [], [] => true
  | (k, v) :: xs, (k2, v2) :: ys => k == k2 && Json.beq v v2 && Json.beqFields xs ys
  | _, _ => false
end

instance : BEq Json := ⟨Json.beq⟩

/-- The whitespace characters the `json` module skips between tokens. -/
def jsonWs (c : Char) : Bool :=
  c = ' ' || c = '\t' || c = '\n' || c = '\r'

/-- Value of a hexadecimal digit, for `\uXXXX` escapes. -/
def hexVal (c : Char) : Option Nat :=
  if '0' ≤ c ∧ c ≤ '9' then some (c.toNat - 48)
  else if 'a' ≤ c ∧ c ≤ 'f' then some (c.toNat - 87)
  else if 'A' ≤ c ∧ c ≤ 'F' then some (c.toNat - 55)
  else none

/-- The single-character string escapes of JSON. -/
def escChar (c : Char) : Option Char :=
  if c = '"' then some '"'
  else if c = '\\' then some '\\'
  else if c = '/' then some '/'
  else if c = 'b' then some (Char.ofNat 8)
  else if c = 'f' then some (Char.ofNat 12)
  else if c = 'n' then some '\n'
  else if c = 'r' then some '\r'
  else if c = 't' then some '\t'
  else none

/-- Parse the body of a JSON string, after the opening quote, returning the
decoded characters and the input following the closing quote.  Strict mode:
raw control characters are rejected.  (Surrogate-pair recombination of
`\uXXXX` escapes is not modelled; no input in this development uses it.) -/
def parseStringBody : List Char → Option (List Char × List Char)
  | [] => none
  | '"' :: rest => some ([], rest)
  | '\\' :: 'u' :: h1 :: h2 :: h3 :: h4 :: rest =>
    match hexVal h1, hexVal h2, hexVal h3, hexVal h4 with
    | some a, some b, some c, some d =>
      (parseStringBody rest).map fun (s, r) =>
        (Char.ofNat (((a * 16 + b) * 16 + c) * 16 + d) :: s, r)
    | _, _, _, _ => none
  | '\\' :: c :: rest =>
    match escChar c with
    | some e => (parseStringBody rest).map fun (s, r) => (e :: s, r)
    | none => none
  | c :: rest =>
    if c.toNat < 32 then none
    else (parseStringBody rest).map fun (s, r) => (c :: s, r)

/-- Optional exponent part of a JSON number (empty when absent or malformed,
mirroring the optional regex group of the `json` module scanner). -/
def parseExp (cs : List Char) : List Char × List Char :=
  match cs with
  | e :: rest =>
    if e = 'e' ∨ e = 'E' then
      match rest with
      | s :: rest2 =>
        if s = '+' ∨ s = '-' then
          let (ds, rest3) := rest2.span (·.isDigit)
          if ds.isEmpty then ([], cs) else (e :: s :: ds, rest3)
        else
          let (ds, rest3) := rest.span (·.isDigit)
          if ds.isEmpty then ([], cs) else (e :: ds, rest3)
      | [] => ([], cs)
    else ([], cs)
  | [] => ([], cs)

/-- Optional fraction and exponent after the integer part of a JSON number. -/
def finishNumber (intPart : List Char) (cs : List Char) : String × List Char :=
  let (fracPart, cs1) :=
    match cs with
    | '.' :: rest =>
      let (ds, rest2) := rest.span (·.isDigit)
      if ds.isEmpty then (([] : List Char), cs) else ('.' :: ds, rest2)
    | _ => ([], cs)
  let (expPart, cs2) := parseExp cs1
  (String.mk (intPart ++ fracPart ++ expPart), cs2)

/-- Maximal-munch JSON number token, per the `json` module regex
`(-?(0|[1-9]\d4))(\.\d4)?([eE][-+]?\d4)?` with `\d4` standing for digit
repetition.  Returns the raw lexeme. -/
def parseNumber (cs : List Char) : Option (String × List Char) :=
  let (negPart, cs1) :=
    match cs with
    | '-' :: rest => (['-'], rest)
    | _ => (([] : List Char), cs)
  match cs1 with
  | c :: rest =>
    if c = '0' then some (finishNumber (negPart ++ ['0']) rest)
    else if c.isDigit then
      let (ds, rest2) := rest.span (·.isDigit)
      some (finishNumber (negPart ++ c :: ds) rest2)
    else none
  | [] => none

/-- Insert a key into a Python-dict model: an existing key keeps its
position and gets the new value, a fresh key is appended. -/
def objInsert : List (String × Json) → String → Json → List (String × Json)
  | [], k, v => [(k, v)]
  | (k2, v2) :: rest, k, v =>
    if k2 = k then (k, v) :: rest else (k2, v2) :: objInsert rest k v

mutual
/-- Recursive-descent JSON value parser (fuelled for termination; the fuel
supplied by `json_loads` is always sufficient). -/
def parseValue : Nat → List Char → Option (Json × List Char)
  | 0, _ => none
  | fuel + 1, cs =>
    match cs.dropWhile jsonWs with
    | '{' :: rest =>
      match rest.dropWhile jsonWs with
      | '}' :: rest2 => some (Json.obj [], rest2)
      | _ => parseMembers fuel rest []
    | '[' :: rest =>
      match rest.dropWhile jsonWs with
      | ']' :: rest2 => some (Json.arr [], rest2)
      | _ => parseElements fuel rest []
    | '"' :: rest => (parseStringBody rest).map fun (s, r) => (Json.str (String.mk s), r)
    | 't' :: 'r' :: 'u' :: 'e' :: rest => some (Json.bool true, rest)
    | 'f' :: 'a' :: 'l' :: 's' :: 'e' :: rest => some (Json.bool false, rest)
    | 'n' :: 'u' :: 'l' :: 'l' :: rest => some (Json.null, rest)
    | other => (parseNumber other).map fun (t, r) => (Json.num t, r)

def parseElements : Nat → List Char → List Json → Option (Json × List Char)
  | 0, _, _ => none
  | fuel + 1, cs, acc =>
    match parseValue fuel cs with
    | none => none
    | some (v, r) =>
      match r.dropWhile jsonWs with
      | ',' :: r2 => parseElements fuel r2 (acc ++ [v])
      | ']' :: r2 => some (Json.arr (acc ++ [v]), r2)
      | _ => none

def parseMembers : Nat → List Char → List (String × Json) → Option (Json × List Char)
  | 0, _, _ => none
  | fuel + 1, cs, acc =>
    match cs.dropWhile jsonWs with
    | '"' :: rest =>
      match parseStringBody rest with
      | none => none
      | some (k, r1) =>
        match r1.dropWhile jsonWs with
        | ':' :: r2 =>
          match parseValue fuel r2 with
          | none => none
          | some (v, r3) =>
            let acc2 := objInsert acc (String.mk k) v
            match r3.dropWhile jsonWs with
            | ',' :: r4 => parseMembers fuel r4 acc2
            | '}' :: r4 => some (Json.obj acc2, r4)
            | _ => none
        | _ => none
    | _ => none
end

/-- Model of `json.loads` on a character list: parse one value, then allow
only trailing whitespace. -/
def json_loads (cs : List Char) : Option Json :=
  match parseValue (2 * cs.length + 2) cs with
  | some (v, rest) => if (rest.dropWhile jsonWs).isEmpty then some v else none
  | none => none

/-- Model of `re.search` of the raw pattern `\[[\s\S]*\]` with `re.DOTALL`
(lead_api.py line 129) followed by
`.group(0)`: the leftmost match of that greedy
pattern is the substring from the first `[` of the text to the last `]`
occurring after it; `none` when no such pair exists. -/
def extractBracket (s : List Char) : Option (List Char) :=
  let t := ((s.dropWhile (· ≠ '[')).reverse.dropWhile (· ≠ ']')).reverse
  if t.isEmpty then none else some t

/-- Python truthiness of a parsed JSON value (`not leads` on line 138 of
lead_api.py).  A number is falsy when its mantissa has no nonzero digit. -/
def pyTruthy : Json → Bool
  | .null => false
  | .bool b => b
  | .num raw =>
    !((raw.toList.takeWhile fun c => c ≠ 'e' ∧ c ≠ 'E').all
        fun c => ¬ ('1' ≤ c ∧ c ≤ '9'))
  | .str s => s ≠ ""
  | .arr xs => !xs.isEmpty
  | .obj fs => !fs.isEmpty

/-- Python `len` of a parsed JSON value; `none` models the `TypeError` that
`len` raises on numbers, booleans and `None`. -/
def pyLen : Json → Option Nat
  | .arr xs => some xs.length
  | .obj fs => some fs.length
  | .str s => some s.length
  | _ => none

/-- The Python type name of a parsed JSON value, for error messages. -/
def pyTypeName : Json → String
  | .null => "NoneType"
  | .bool _ => "bool"
  | .num raw =>
    if raw.toList.any fun c => c = '.' ∨ c = 'e' ∨ c = 'E' then "float" else "int"
  | .str _ => "str"
  | .arr _ => "list"
  | .obj _ => "dict"

mutual
/-- Approximation of Python `str()` on a parsed JSON value (used only inside
printed diagnostics and error details; string quoting subtleties of `repr`
are not reproduced). -/
def pyRepr : Json → String
  | .null => "None"
  | .bool true => "True"
  | .bool false => "False"
  | .num raw => raw
  | .str s => "\x27" ++ s ++ "\x27"
  | .arr xs => "[" ++ pyReprElems xs ++ "]"
  | .obj fs => "\x7b" ++ pyReprFields fs ++ "\x7d"

def pyReprElems : List Json → String
  | [] => ""
  | [x] => pyRepr x
  | x :: xs => pyRepr x ++ ", " ++ pyReprElems xs

def pyReprFields : List (String × Json) → String
  | [] => ""
  | [(k, v)] => "\x27" ++ k ++ "\x27: " ++ pyRepr v
  | (k, v) :: fs => "\x27" ++ k ++ "\x27: " ++ pyRepr v ++ ", " ++ pyReprFields fs
end

/-- Python `str()` of the extractor result (`None` or a JSON value). -/
def pyReprOpt : Option Json → String
  | none => "None"
  | some j => pyRepr j

/-- One result object of the Tavily search response: a dict with optional
`url`, `title` and `content` keys.  (The raw response is consumed only via
`.get` and `in` on these three keys, so this record is its faithful view.) -/
structure TavilyResult where
  url : Option String
  title : Option String
  content : Option String
deriving DecidableEq

/-- The block the comprehension on lines 52-55 of lead_api.py builds for one
result: `result.get` with the defaults of the source. -/
def fmtBlock (r : TavilyResult) : String :=
  "Source: " ++ r.url.getD ("Unknown") ++ "\nTitle: " ++ r.title.getD ("Unknown")
    ++ "\nContent: " ++ r.content.getD ("No content") ++ "\n---"

/-- Model of `Scrap_News` (lead_api.py lines 41-57).  `configured` models the
truthiness of the global `tavily_client`; `resp` models the Tavily API
response, where `none` stands for a falsy response or one without a
`results` key.  Returns the raised `ValueError` message or the blob, paired
with the lines printed on the way. -/
def Scrap_News (configured : Bool) (topic : String)
    (resp : Option (List TavilyResult)) : Except String String × List String :=
  if ¬ configured then
    (.error ("Tavily API key is missing. Set TAVILY_API_KEY in your .env file."), [])
  else
    let fetchLine := "Fetching Latest News for: " ++ topic ++ "..."
    match resp with
    | none => (.error ("Invalid response from Tavily API."), [fetchLine])
    | some rs =>
      let blob :=
        String.intercalate ("\n") ((rs.filter fun r => r.content.isSome).map fmtBlock)
      (.ok blob, [fetchLine, "Raw Content : " ++ blob])

/-- The parsing stage of `ExtractContent` (lead_api.py lines 128-135):
bracket recovery, then `json.loads` on the recovered substring, falling
back to `json.loads` on the whole reply when no bracketed substring
exists. -/
def parsedLeads (cs : List Char) : Option Json :=
  match extractBracket cs with
  | some b => json_loads b
  | none => json_loads cs

/-- The line printed by `ExtractContent` before the LLM call. -/
def extractHeader : String := "\n\n********Extracting Leads From Content******..."

/-- Model of `ExtractContent` (lead_api.py lines 59-148).  `configured`
models the truthiness of the global `groq_client`; `response` is the text
completion returned by the LLM call (an oracle input — the prompt built
from `content` and `query` is consumed only by that external call, so it
does not appear in the model).  Returns the raised `ValueError` message
when unconfigured; otherwise the Python return value (`some leads`, or
`none` for the fall-through `return None` after a swallowed parse
failure), paired with the printed lines. -/
def ExtractContent (configured : Bool) (response : String) :
    Except String (Option Json × List String) :=
  if ¬ configured then
    .error ("Groq API key is missing. Set GROQ_API_KEY in your .env file.")
  else
    .ok (match parsedLeads response.toList with
      | none =>
        (none, [extractHeader, "Failed to parse JSON from response",
                "Raw response: " ++ response])
      | some leads =>
        if pyTruthy leads then
          match pyLen leads with
          | some n =>
            if n < 1 then
              (none, [extractHeader,
                      "Error extracting leads: No leads extracted from content",
                      "Raw response: " ++ response])
            else (some leads, [extractHeader])
          | none =>
            (none, [extractHeader,
                    "Error extracting leads: object of type \x27" ++ pyTypeName leads
                      ++ "\x27 has no len()",
                    "Raw response: " ++ response])
        else
          (none, [extractHeader,
                  "Error extracting leads: No leads extracted from content",
                  "Raw response: " ++ response]))

/-- Substring test on character lists, modelling Python `needle in s` on
strings. -/
def containsSub (needle : List Char) : List Char → Bool
  | [] => needle.isEmpty
  | c :: rest => needle.isPrefixOf (c :: rest) || containsSub needle rest

/-- Does a parsed JSON object have this key (`"id" not in lead` on a dict)? -/
def jsonHasKey (k : String) (fields : List (String × Json)) : Bool :=
  fields.any fun p => p.1 == k

/-- Value of the first occurrence of a key in a parsed JSON object. -/
def jsonLookup (k : String) : List (String × Json) → Option Json
  | [] => none
  | (k2, v) :: rest => if k2 = k then some v else jsonLookup k rest

/-- One iteration of the id loop (lead_api.py lines 177-179) on the lead at
0-based index `i`.  On a dict, `lead["id"] = str(i + 1)` appends the fresh
key; on other values it reproduces what `"id" not in lead` /
`lead["id"] = ...` do in Python: strings and lists support `in` (substring
/ membership) but reject the assignment with a `TypeError`, everything else
already fails the `in` test with a `TypeError`. -/
def addIdStep (i : Nat) : Json → Except String Json
  | .obj fields =>
    if jsonHasKey ("id") fields then .ok (.obj fields)
    else .ok (.obj (fields ++ [(("id" : String), .str (toString (i + 1)))]))
  | .str s =>
    if containsSub ("id".toList) s.toList then .ok (.str s)
    else .error ("\x27str\x27 object does not support item assignment")
  | .arr xs =>
    if xs.contains (.str ("id")) then .ok (.arr xs)
    else .error ("list indices must be integers or slices, not str")
  | j => .error ("argument of type \x27" ++ pyTypeName j ++ "\x27 is not iterable")

/-- The id loop from 0-based index `i` on. -/
def addIdsFrom (i : Nat) : List Json → Except String (List Json)
  | [] => .ok []
  | l :: ls =>
    match addIdStep i l with
    | .error e => .error e
    | .ok l2 =>
      match addIdsFrom (i + 1) ls with
      | .error e => .error e
      | .ok ls2 => .ok (l2 :: ls2)

/-- The whole id-assignment loop of the orchestrator (lead_api.py lines
177-179), as a pure function on the extracted lead list. -/
def addIds (leads : List Json) : Except String (List Json) := addIdsFrom 0 leads

/-- The two secrets read from the environment at module load
(`GROQ_API_KEY`, `TAVILY_API_KEY`). -/
structure Env where
  tavily_api_key : Option String
  model_api_key : Option String
deriving DecidableEq

/-- Python truthiness of an optional environment value; the clients are
initialized exactly when the corresponding key is truthy (lead_api.py lines
35-39), and line 162 tests the same truthiness. -/
def truthyKey : Option String → Bool
  | none => false
  | some s => s ≠ ""

/-- Whitespace for Python `str.strip()` (the ASCII whitespace characters;
Unicode whitespace, which `strip` also removes, is not modelled — no claim
depends on it). -/
def pyIsSpace (c : Char) : Bool :=
  c = ' ' || c = '\t' || c = '\n' || c = '\r' || c = Char.ofNat 11 || c = Char.ofNat 12

/-- Model of Python `str.strip()`. -/
def pyStrip (s : String) : String :=
  String.mk (((s.toList.dropWhile pyIsSpace).reverse.dropWhile pyIsSpace).reverse)

/-- The oracle inputs of one request: what the two external services would
answer if called. -/
structure World where
  tavilyResponse : Option (List TavilyResult)
  llmReply : String

/-- An outbound network call made while serving a request. -/
inductive ExtCall where
  | tavilySearch : String → ExtCall
  | groqComplete : ExtCall
deriving DecidableEq

/-- The success envelope built on lead_api.py lines 181-186. -/
structure SearchResponse where
  success : Bool
  query : String
  timestamp : String
  results : List Json

/-- The HTTP outcome of the endpoint: a 200 body or an `HTTPException`
status/detail pair. -/
inductive HttpResult where
  | ok : SearchResponse → HttpResult
  | error : Nat → String → HttpResult

/-- Everything observable about one request: the HTTP outcome, the outbound
calls that were made, and the printed log lines. -/
structure SearchOutcome where
  http : HttpResult
  calls : List ExtCall
  logs : List String

/-- The message of the `ValueError` raised on lead_api.py line 163. -/
def keysMissingMsg : String :=
  "API keys are missing. Make sure both TAVILY_API_KEY and GROQ_API_KEY are set in your .env file."

/-- The orchestrator maps every exception caught on line 191 to a 500 whose
detail wraps `str(e)` (line 193). -/
def wrapMsg (m : String) : String := "Error processing search query: " ++ m

/-- Python `str()` of the `HTTPException(500, detail)` raised on line 189,
once it is caught by the generic handler: starlette defines
`HTTPException.__str__` as the status code, a colon and a space, then the
detail. -/
def httpExcStr (detail : String) : String :=
  "500: " ++ detail

/-- Model of the `/api/search` handler (lead_api.py lines 155-193).

`env` is the loaded environment, `world` the oracle answers of the two
external services, `now` the wall-clock UTC time at the request (in
ISO-8601 form) — the implementation never reads it, which is exactly
what claim C3 is about.

Control flow of the source: the blank-query check raises a 400 outside the
`try`; everything else runs inside it, and any exception is re-raised as a
500 wrapping `str(e)`.  The Tavily call happens inside `Scrap_News` before
its response check, the Groq call inside `ExtractContent` before parsing;
`calls` records them in order. -/
def search (env : Env) (query : String) (world : World) (now : String) : SearchOutcome :=
  if query = "" ∨ pyStrip query = "" then
    ⟨.error 400 ("Search query cannot be empty"), [], []⟩
  else if ¬ truthyKey env.tavily_api_key ∨ ¬ truthyKey env.model_api_key then
    ⟨.error 500 (wrapMsg keysMissingMsg), [], [wrapMsg keysMissingMsg]⟩
  else
    match Scrap_News (truthyKey env.tavily_api_key) query world.tavilyResponse with
    | (.error msg, slogs) =>
      ⟨.error 500 (wrapMsg msg), [.tavilySearch query], slogs ++ [wrapMsg msg]⟩
    | (.ok _blob, slogs) =>
      match ExtractContent (truthyKey env.model_api_key) world.llmReply with
      | .error msg =>
        -- `ExtractContent` raised before its LLM call (unreachable here,
        -- since the key check above already passed)
        ⟨.error 500 (wrapMsg msg), [.tavilySearch query], slogs ++ [wrapMsg msg]⟩
      | .ok (results?, elogs) =>
        let resultsLine := "results:" ++ pyReprOpt results?
        match results? with
        | some (Json.arr leads) =>
          match addIds leads with
          | .ok withIds =>
            ⟨.ok ⟨true, query, "2025-05-09T00:00:00Z", withIds⟩,
             [.tavilySearch query, .groqComplete],
             slogs ++ elogs ++ [resultsLine]⟩
          | .error tmsg =>
            ⟨.error 500 (wrapMsg tmsg),
             [.tavilySearch query, .groqComplete],
             slogs ++ elogs ++ [resultsLine, wrapMsg tmsg]⟩
        | _ =>
          let detail := "Failed to extract leads: " ++ pyReprOpt results?
          ⟨.error 500 (wrapMsg (httpExcStr detail)),
           [.tavilySearch query, .groqComplete],
           slogs ++ elogs ++ [resultsLine, wrapMsg (httpExcStr detail)]⟩

/-! ### Specification-side definitions

`specBlock`, `specBlocks` and `specBlob` follow the words of the (amended)
retriever claim — one Source/Title/Content block, with the actual content,
per result that has a content field, joined by newlines — and are compared
against the blob `Scrap_News` computes.  `leadId` reads the id field of a
returned lead, used to state the id-assignment claims. -/

/-- One blob block as the claim describes it: three lines built from the
result, with its actual content `c`, then the separator line. -/
def specBlock (r : TavilyResult) (c : String) : String :=
  "Source: " ++ r.url.getD ("Unknown") ++ "\nTitle: " ++ r.title.getD ("Unknown")
    ++ "\nContent: " ++ c ++ "\n---"

/-- Blocks of the results carrying a content field, in API order. -/
def specBlocks : List TavilyResult → List String
  | [] => []
  | r :: rs =>
    match r.content with
    | some c => specBlock r c :: specBlocks rs
    | none => specBlocks rs

/-- The claim-side blob: the blocks joined by newlines, empty when there are
no blocks. -/
def specBlob (rs : List TavilyResult) : String :=
  String.intercalate ("\n") (specBlocks rs)

/-- The id field of a returned lead object (`none` for a non-object lead or
an object without an id key). -/
def leadId : Json → Option Json
  | .obj fs => jsonLookup ("id") fs
  | _ => none

/-! ### Helper lemmas -/

/-- Decimal digit accumulator, to read a numeral back off. -/
def decStep (a : Nat) (c : Char) : Nat := a * 10 + (c.toNat - 48)

lemma digitChar_val : ∀ m, m < 10 → (Nat.digitChar m).toNat - 48 = m := by decide

lemma foldl_toDigitsCore :
    ∀ (f n : Nat) (acc : List Char), n < f →
      (Nat.toDigitsCore 10 f n acc).foldl decStep 0 = acc.foldl decStep n := by
  intro f
  induction f with
  | zero => intro n acc h; omega
  | succ f ih =>
    intro n acc h
    simp only [Nat.toDigitsCore]
    by_cases h10 : n / 10 = 0
    · rw [if_pos h10]
      simp only [List.foldl]
      have hd : decStep 0 (Nat.digitChar (n % 10)) = n := by
        simp only [decStep]
        rw [digitChar_val (n % 10) (Nat.mod_lt _ (by omega))]
        omega
      rw [hd]
    · rw [if_neg h10]
      have hpos : 0 < n := by
        rcases Nat.eq_zero_or_pos n with h0 | h0
        · subst h0; simp at h10
        · exact h0
      have hdiv : n / 10 < n := Nat.div_lt_self hpos (by omega)
      rw [ih (n / 10) _ (by omega)]
      simp only [List.foldl]
      have hd : decStep (n / 10) (Nat.digitChar (n % 10)) = n := by
        simp only [decStep]
        rw [digitChar_val (n % 10) (Nat.mod_lt _ (by omega))]
        omega
      rw [hd]

/-- Distinct naturals have distinct decimal representations (needed for
uniqueness of the assigned ids). -/
lemma natRepr_inj : Function.Injective Nat.repr := by
  intro m n h
  have hlist : Nat.toDigits 10 m = Nat.toDigits 10 n := by
    have := congrArg String.data h
    simpa [Nat.repr, List.asString] using this
  have hm : (Nat.toDigits 10 m).foldl decStep 0 = m := by
    unfold Nat.toDigits
    rw [foldl_toDigitsCore (m + 1) m [] (by omega)]
    rfl
  have hn : (Nat.toDigits 10 n).foldl decStep 0 = n := by
    unfold Nat.toDigits
    rw [foldl_toDigitsCore (n + 1) n [] (by omega)]
    rfl
  rw [← hm, ← hn, hlist]

lemma dropWhile_all {p : Char → Bool} {l1 l2 : List Char} (h : ∀ a ∈ l1, p a = true) :
    (l1 ++ l2).dropWhile p = l2.dropWhile p := by
  rw [List.dropWhile_append]
  have : l1.dropWhile p = [] := List.dropWhile_eq_nil_iff.2 h
  simp [this]

lemma dropWhile_head_neg {p : Char → Bool} {c : Char} {t : List Char} (h : p c = false) :
    (c :: t).dropWhile p = c :: t := by
  simp [List.dropWhile, h]

/-- On a text decomposing into bracket-free prose around a body that starts
with `[` and ends with `]`, the regex recovery returns exactly the body. -/
lemma extractBracket_of_decomp (pre body post : List Char)
    (hpre : ∀ c ∈ pre, c ≠ '[')
    (hpost : ∀ c ∈ post, c ≠ ']')
    (hhead : body.head? = some '[')
    (hlast : body.getLast? = some ']') :
    extractBracket (pre ++ body ++ post) = some body := by
  obtain ⟨btl, hb⟩ : ∃ btl, body = '[' :: btl := by
    cases body with
    | nil => simp at hhead
    | cons b bt => simp at hhead; exact ⟨bt, by rw [hhead]⟩
  obtain ⟨rtl, hr⟩ : ∃ rtl, body.reverse = ']' :: rtl := by
    cases hrv : body.reverse with
    | nil => rw [List.reverse_eq_nil_iff] at hrv; subst hrv; simp at hhead
    | cons b bt =>
      have hh : body.reverse.head? = some b := by rw [hrv]; rfl
      rw [List.head?_reverse, hlast] at hh
      exact ⟨bt, by rw [← Option.some_inj.1 hh]⟩
  have h1 : (pre ++ (body ++ post)).dropWhile (· ≠ '[') = body ++ post := by
    rw [dropWhile_all (by intro a ha; simp [hpre a ha])]
    rw [hb]
    exact dropWhile_head_neg (by simp)
  have h2 : (body ++ post).reverse.dropWhile (· ≠ ']') = body.reverse := by
    rw [List.reverse_append]
    rw [dropWhile_all (by intro a ha; simp at ha; simp [hpost a ha])]
    rw [hr]
    exact dropWhile_head_neg (by simp)
  unfold extractBracket
  rw [List.append_assoc, h1, h2, List.reverse_reverse]
  rw [if_neg (by rw [hb]; simp)]

/-- Inversion: when the Extractor hands back a value, that value is exactly
the one the parsing stage produced, it is truthy, and nothing beyond the
header was printed. -/
lemma ExtractContent_ok_some {c : Bool} {r : String} {v : Json} {logs : List String}
    (h : ExtractContent c r = .ok (some v, logs)) :
    parsedLeads r.toList = some v ∧ pyTruthy v = true ∧ logs = [extractHeader] := by
  unfold ExtractContent at h
  split at h
  · exact absurd h (by simp)
  · rw [Except.ok.injEq] at h
    split at h
    · simp at h
    · rename_i leads heq
      split at h
      · split at h
        · split at h
          · simp at h
          · rw [Prod.mk.injEq] at h
            obtain ⟨h1, h2⟩ := h
            rw [Option.some_inj] at h1
            subst h1
            exact ⟨heq, by assumption, h2.symm⟩
        · simp at h
      · simp at h

lemma addIdsFrom_ok_length : ∀ (ls : List Json) (i : Nat) (out : List Json),
    addIdsFrom i ls = .ok out → out.length = ls.length := by
  intro ls
  induction ls with
  | nil =>
    intro i out h
    unfold addIdsFrom at h
    rw [Except.ok.injEq] at h
    simp [← h]
  | cons l ls ih =>
    intro i out h
    unfold addIdsFrom at h
    split at h
    · exact absurd h (by simp)
    · split at h
      · exact absurd h (by simp)
      · rename_i scrut2 ls2 hrec
        rw [Except.ok.injEq] at h
        rw [← h]
        simp [ih (i + 1) ls2 hrec]

lemma addIdsFrom_ok_get : ∀ (ls : List Json) (i : Nat) (out : List Json),
    addIdsFrom i ls = .ok out → ∀ (j : Nat) (l : Json), ls[j]? = some l →
      ∃ l2, addIdStep (i + j) l = .ok l2 ∧ out[j]? = some l2 := by
  intro ls
  induction ls with
  | nil => intro i out h j l hj; simp at hj
  | cons a ls ih =>
    intro i out h j l hj
    unfold addIdsFrom at h
    split at h
    · exact absurd h (by simp)
    · split at h
      · exact absurd h (by simp)
      · rename_i scrut1 l2 hstep scrut2 ls2 hrec
        rw [Except.ok.injEq] at h
        subst h
        cases j with
        | zero =>
          simp at hj
          subst hj
          exact ⟨l2, by simpa using hstep, by simp⟩
        | succ j =>
          simp only [List.getElem?_cons_succ] at hj
          obtain ⟨l3, hs, ho⟩ := ih (i + 1) ls2 hrec j l hj
          refine ⟨l3, ?_, by simpa using ho⟩
          have : i + 1 + j = i + (j + 1) := by omega
          rw [← this]
          exact hs

lemma jsonLookup_append_fresh {fs : List (String × Json)} {v : Json}
    (h : jsonHasKey ("id") fs = false) :
    jsonLookup ("id") (fs ++ [(("id" : String), v)]) = some v := by
  induction fs with
  | nil => simp [jsonLookup]
  | cons p fs ih =>
    simp only [jsonHasKey, List.any_cons, Bool.or_eq_false_iff] at h
    obtain ⟨h1, h2⟩ := h
    simp only [List.cons_append, jsonLookup]
    rw [if_neg (by simpa using h1)]
    exact ih (by simpa [jsonHasKey] using h2)

lemma pyStrip_all_space {s : String} (h : ∀ c ∈ s.toList, pyIsSpace c = true) :
    pyStrip s = "" := by
  unfold pyStrip
  have : s.toList.dropWhile pyIsSpace = [] := List.dropWhile_eq_nil_iff.2 h
  rw [this]
  rfl

lemma specBlocks_eq (rs : List TavilyResult) :
    specBlocks rs = (rs.filter fun r => r.content.isSome).map fmtBlock := by
  induction rs with
  | nil => rfl
  | cons r rs ih =>
    cases hc : r.content with
    | none => simp [specBlocks, hc, List.filter_cons, ih]
    | some c => simp [specBlocks, hc, List.filter_cons, ih, specBlock, fmtBlock]

lemma specBlocks_nil_of_none {rs : List TavilyResult} (h : ∀ r ∈ rs, r.content = none) :
    specBlocks rs = [] := by
  induction rs with
  | nil => rfl
  | cons r rs ih =>
    simp only [specBlocks]
    rw [h r (by simp)]
    exact ih (fun r2 hr2 => h r2 (by simp [hr2]))

/-- Inversion of a 200 outcome of `search`: the envelope carries the fixed
success/query/timestamp fields, and the results come from an Extractor list
run through the id loop. -/
lemma search_ok_elim {env : Env} {query : String} {world : World} {now : String}
    {body : SearchResponse}
    (h : (search env query world now).http = .ok body) :
    body.success = true ∧ body.query = query ∧
    body.timestamp = "2025-05-09T00:00:00Z" ∧
    ∃ xs elogs, ExtractContent (truthyKey env.model_api_key) world.llmReply
        = .ok (some (Json.arr xs), elogs) ∧ addIds xs = .ok body.results := by
  unfold search at h
  split at h
  · simp at h
  · split at h
    · simp at h
    · split at h
      · simp at h
      · rename_i scrA blob slogs hscrap
        split at h
        · simp at h
        · rename_i scrB pr hec
          split at h
          · rename_i leads
            split at h
            · rename_i scrC withIds haddids
              simp only [HttpResult.ok.injEq] at h
              subst h
              exact ⟨rfl, rfl, rfl, leads, pr, hec, haddids⟩
            · simp at h
          · simp at h

/-! ### Claim C1 -/

/-- Claim C1, counterexample: with the LLM reply carrying a lead that already
has an id field (first lead id `2`), the 200 response keeps that id: the
element at position 0 has id `2`, not `1`, and both elements end up with id
`2` — ids are neither position-matching nor unique, refuting the claim as
stated. -/
theorem C1_counterexample_llm_supplied_id_preserved :
    (search ⟨some ("tk"), some ("gk")⟩ "acme"
        ⟨some [], "[\x7b\"id\":\"2\"\x7d,\x7b\"name\":\"A\"\x7d]"⟩ "t").http
      = .ok ⟨true, "acme", "2025-05-09T00:00:00Z",
          [Json.obj [(("id" : String), Json.str ("2"))],
           Json.obj [(("name" : String), Json.str ("A")), (("id" : String), Json.str ("2"))]]⟩ ∧
    leadId (Json.obj [(("id" : String), Json.str ("2"))]) ≠ some (Json.str ("1")) := by
  constructor
  · rfl
  · intro h
    simp [leadId, jsonLookup, Json.str.injEq] at h

/-- Claim C1 as amended: when every lead in the Extractor output is an
object without an id key, every element of the returned results list
carries the 1-based sequential string id matching its position, and those
ids are pairwise distinct; pre-existing ids would be preserved instead. -/
theorem C1_sequential_ids_when_extractor_leads_lack_id
    (env : Env) (query : String) (world : World) (now : String)
    (body : SearchResponse) (xs : List Json) (elogs : List String)
    (h1 : ExtractContent (truthyKey env.model_api_key) world.llmReply
      = .ok (some (Json.arr xs), elogs))
    (h2 : ∀ l ∈ xs, ∃ fs, l = Json.obj fs ∧ jsonHasKey ("id") fs = false)
    (h3 : (search env query world now).http = .ok body) :
    body.results.length = xs.length ∧
    (∀ (j : Nat) (r : Json), body.results[j]? = some r →
      leadId r = some (Json.str (toString (j + 1)))) ∧
    ∀ (i j : Nat) (ri rj : Json), body.results[i]? = some ri →
      body.results[j]? = some rj → i ≠ j → leadId ri ≠ leadId rj := by
  obtain ⟨_, _, _, xs2, elogs2, hec, hadd⟩ := search_ok_elim h3
  rw [h1] at hec
  have hxs : xs = xs2 := by
    have := hec
    simp only [Except.ok.injEq, Prod.mk.injEq, Option.some.injEq, Json.arr.injEq] at this
    exact this.1
  subst hxs
  have hlen := addIdsFrom_ok_length xs 0 body.results hadd
  have hmain : ∀ (j : Nat) (r : Json), body.results[j]? = some r →
      leadId r = some (Json.str (toString (j + 1))) := by
    intro j r hr
    have hj : j < body.results.length := by
      rcases List.getElem?_eq_some.1 hr with ⟨h, _⟩
      exact h
    have hjx : j < xs.length := by omega
    obtain ⟨l, hlx⟩ : ∃ l, xs[j]? = some l := by
      rw [List.getElem?_eq_getElem hjx]
      exact ⟨_, rfl⟩
    have hmem : l ∈ xs := List.getElem?_mem hlx
    obtain ⟨fs, hobj, hfresh⟩ := h2 l hmem
    obtain ⟨l2, hstep, hout⟩ := addIdsFrom_ok_get xs 0 body.results hadd j (Json.obj fs)
      (by rw [← hobj]; exact hlx)
    simp only [Nat.zero_add] at hstep
    simp only [addIdStep, hfresh] at hstep
    have he : Json.obj (fs ++ [(("id" : String), Json.str (toString (j + 1)))]) = l2 := by
      simpa using hstep
    rw [hout] at hr
    have hr2 : l2 = r := by simpa using hr
    rw [← hr2, ← he]
    simp only [leadId]
    exact jsonLookup_append_fresh hfresh
  refine ⟨hlen, hmain, ?_⟩
  intro i j ri rj hri hrj hne heq
  have h1i := hmain i ri hri
  have h1j := hmain j rj hrj
  rw [h1i, h1j] at heq
  simp only [Option.some.injEq, Json.str.injEq] at heq
  have heq2 : Nat.repr (i + 1) = Nat.repr (j + 1) := heq
  have := natRepr_inj heq2
  omega

/-- Claim C1 witness: a concrete run whose two extracted leads have no id
fields; positions 0 and 1 of the response get ids `1` and `2`. -/
theorem C1_sequential_ids_witness :
    leadId (Json.obj [(("name" : String), Json.str ("A")), (("id" : String), Json.str ("1"))])
      = some (Json.str ("1")) ∧
    leadId (Json.obj [(("name" : String), Json.str ("B")), (("id" : String), Json.str ("2"))])
      = some (Json.str ("2")) :=
  have h := C1_sequential_ids_when_extractor_leads_lack_id ⟨some ("tk"), some ("gk")⟩ "acme"
    ⟨some [], "[\x7b\"name\":\"A\"\x7d,\x7b\"name\":\"B\"\x7d]"⟩ "t"
    ⟨true, "acme", "2025-05-09T00:00:00Z",
      [Json.obj [(("name" : String), Json.str ("A")), (("id" : String), Json.str ("1"))],
       Json.obj [(("name" : String), Json.str ("B")), (("id" : String), Json.str ("2"))]]⟩
    [Json.obj [(("name" : String), Json.str ("A"))], Json.obj [(("name" : String), Json.str ("B"))]]
    [extractHeader] rfl
    (by
      intro l hl
      simp only [List.mem_cons, List.not_mem_nil, or_false] at hl
      rcases hl with rfl | rfl
      · exact ⟨[(("name" : String), Json.str ("A"))], rfl, rfl⟩
      · exact ⟨[(("name" : String), Json.str ("B"))], rfl, rfl⟩)
    rfl
  ⟨h.2.1 0 _ rfl, h.2.1 1 _ rfl⟩

/-! ### Claim C2 -/

/-- Claim C2, counterexample: on an unparseable LLM reply the request does
not complete with zero leads — it aborts with a 500 error response, so the
claimed zero-leads degradation does not happen. -/
theorem C2_counterexample_parse_failure_yields_500 :
    (search ⟨some ("tk"), some ("gk")⟩ "acme" ⟨some [], "I cannot help with that."⟩ "t").http
      = .error 500
          ("Error processing search query: 500: Failed to extract leads: None") := rfl

/-- Claim C2 as amended: a reply whose recovered bracketed substring (or, in
its absence, the whole reply) is not parseable JSON never crashes the
request with an uncaught parse error — the Extractor swallows it, prints
the diagnostic trace, and returns no value; the orchestrator then finishes
the request with a 500-equivalent error response, not with a zero-lead
success envelope. -/
theorem C2_parse_failure_no_crash_diagnostic_then_500
    (env : Env) (query : String) (world : World) (now : String)
    (rs : List TavilyResult)
    (hq : ¬ (query = "" ∨ pyStrip query = ""))
    (ht : truthyKey env.tavily_api_key = true)
    (hm : truthyKey env.model_api_key = true)
    (hw : world.tavilyResponse = some rs)
    (hp : parsedLeads world.llmReply.toList = none) :
    (search env query world now).http
      = .error 500 (wrapMsg (httpExcStr ("Failed to extract leads: None"))) ∧
    "Failed to parse JSON from response" ∈ (search env query world now).logs := by
  have hec : ExtractContent (truthyKey env.model_api_key) world.llmReply
      = .ok (none, [extractHeader, "Failed to parse JSON from response",
                    "Raw response: " ++ world.llmReply]) := by
    rw [hm]
    unfold ExtractContent
    rw [if_neg (by simp)]
    rw [hp]
  have hscrap : Scrap_News (truthyKey env.tavily_api_key) query world.tavilyResponse
      = (.ok (String.intercalate ("\n") ((rs.filter fun r => r.content.isSome).map fmtBlock)),
         ["Fetching Latest News for: " ++ query ++ "...",
          "Raw Content : "
            ++ String.intercalate ("\n") ((rs.filter fun r => r.content.isSome).map fmtBlock)]) := by
    rw [ht, hw]
    rfl
  unfold search
  rw [if_neg hq, if_neg (by simp [ht, hm])]
  rw [hscrap]
  simp only [hec]
  simp [pyReprOpt]

/-- Claim C2 witness: the amended behavior at a concrete prose refusal. -/
theorem C2_parse_failure_witness :
    (search ⟨some ("tk"), some ("gk")⟩ "acme" ⟨some [], "I cannot help with that."⟩ "t").http
      = .error 500 (wrapMsg (httpExcStr ("Failed to extract leads: None"))) ∧
    "Failed to parse JSON from response"
      ∈ (search ⟨some ("tk"), some ("gk")⟩ "acme" ⟨some [], "I cannot help with that."⟩ "t").logs :=
  C2_parse_failure_no_crash_diagnostic_then_500 _ _ _ _ [] (by decide) rfl rfl rfl rfl

/-! ### Claim C3 -/

/-- Claim C3: every 200 envelope has success true and echoes the query, but
the timestamp field is the constant string 2025-05-09T00:00:00Z whatever
the wall-clock time `now` of the request is — the code never reads the
clock, contradicting the claimed current UTC timestamp. -/
theorem C3_success_envelope_constant_timestamp
    (env : Env) (query : String) (world : World) (now : String)
    (body : SearchResponse) (h : (search env query world now).http = .ok body) :
    body.success = true ∧ body.query = query ∧
    body.timestamp = "2025-05-09T00:00:00Z" := by
  obtain ⟨h1, h2, h3, _⟩ := search_ok_elim h
  exact ⟨h1, h2, h3⟩

/-- Claim C3 witness: a request served at a 2026 instant still carries the
2025 placeholder timestamp. -/
theorem C3_success_envelope_witness :
    (⟨true, "acme", "2025-05-09T00:00:00Z",
        [Json.obj [(("name" : String), Json.str ("A")), (("id" : String), Json.str ("1"))]]⟩
      : SearchResponse).timestamp = "2025-05-09T00:00:00Z" :=
  (C3_success_envelope_constant_timestamp ⟨some ("tk"), some ("gk")⟩ "acme"
    ⟨some [], "[\x7b\"name\":\"A\"\x7d]"⟩ "2026-10-12T12:00:00Z" _ rfl).2.2

/-! ### Claim C4 -/

/-- Claim C4, counterexample: a result whose content field is present but
empty is not skipped — its block (with an empty Content line) appears in
the blob, so the blob is not the empty string the claim requires when no
result has non-empty content. -/
theorem C4_counterexample_empty_content_kept :
    (Scrap_News true ("ai") (some [⟨some ("u"), some ("t"), some ("")⟩])).1
      = .ok ("Source: u\nTitle: t\nContent: \n---") ∧
    ("Source: u\nTitle: t\nContent: \n---" : String) ≠ "" := ⟨rfl, by decide⟩

/-- Claim C4 as amended: the Retriever blob is exactly the newline-join of
one Source/Title/Content block, then a separator line, per result that has
a content field (even an empty one), in API order; results without a
content field are silently skipped, and the blob is the empty string when
no result has a content field. -/
theorem C4_blob_refines_content_key_blocks (topic : String) (rs : List TavilyResult) :
    (Scrap_News true topic (some rs)).1 = .ok (specBlob rs) ∧
    ((∀ r ∈ rs, r.content = none) → specBlob rs = "") := by
  constructor
  · unfold Scrap_News specBlob
    rw [specBlocks_eq]
    rfl
  · intro h
    unfold specBlob
    rw [specBlocks_nil_of_none h]
    rfl

/-- Claim C4 witness: a result list whose only entry lacks the content
field produces the empty blob. -/
theorem C4_blob_witness :
    (Scrap_News true ("ai") (some [⟨some ("u"), none, none⟩])).1 = .ok ("") :=
  (C4_blob_refines_content_key_blocks ("ai") [⟨some ("u"), none, none⟩]).1.trans
    (by rw [(C4_blob_refines_content_key_blocks ("ai") [⟨some ("u"), none, none⟩]).2 (by decide)])

/-! ### Claim C5 -/

/-- Claim C5, counterexample: a reply that is a JSON array of lead objects
surrounded by extraneous prose, where the prose itself contains a bracket
(`Refs [1] say:`), defeats the recovery: the greedy first-to-last bracket
substring has trailing garbage, parsing fails, and no leads are recovered
(only the parse-failure diagnostics are printed). -/
theorem C5_counterexample_bracket_in_prose :
    ExtractContent true
        ("Refs [1] say:\n[\x7b\"name\":\"A\",\"title\":\"B\",\"company\":\"C\",\"email\":\"\",\"phone\":\"\",\"source\":\"X\",\"location\":\"\"\x7d]\nDone.")
      = .ok (none, [extractHeader, "Failed to parse JSON from response",
          "Raw response: Refs [1] say:\n[\x7b\"name\":\"A\",\"title\":\"B\",\"company\":\"C\",\"email\":\"\",\"phone\":\"\",\"source\":\"X\",\"location\":\"\"\x7d]\nDone."]) := rfl

/-- Claim C5 as amended: when the prose before the array contains no `[` and
the prose after it contains no `]`, the recovery takes exactly the
substring from the first `[` to the last `]` — the embedded array — and
the parsing stage equals the JSON parse of that array alone; when the reply
contains no bracketed substring at all, the parsing stage falls back to
parsing the whole reply. -/
theorem C5_bracket_recovery_bracket_free_prose (pre body post : List Char)
    (hpre : ∀ c ∈ pre, c ≠ '[') (hpost : ∀ c ∈ post, c ≠ ']')
    (hhead : body.head? = some '[') (hlast : body.getLast? = some ']') :
    extractBracket (pre ++ body ++ post) = some body ∧
    parsedLeads (pre ++ body ++ post) = json_loads body ∧
    ∀ s : List Char, extractBracket s = none → parsedLeads s = json_loads s := by
  have he := extractBracket_of_decomp pre body post hpre hpost hhead hlast
  refine ⟨he, ?_, ?_⟩
  · unfold parsedLeads
    rw [he]
  · intro s hs
    unfold parsedLeads
    rw [hs]

/-- Claim C5 witness: the exact reply of the claim — prose, the one-lead
array, prose — is recovered and parses to exactly the embedded lead
object. -/
theorem C5_bracket_recovery_witness :
    parsedLeads ("Here are the leads:\n".toList
        ++ "[\x7b\"name\":\"A\",\"title\":\"B\",\"company\":\"C\",\"email\":\"\",\"phone\":\"\",\"source\":\"X\",\"location\":\"\"\x7d]".toList
        ++ "\nDone.".toList)
      = json_loads ("[\x7b\"name\":\"A\",\"title\":\"B\",\"company\":\"C\",\"email\":\"\",\"phone\":\"\",\"source\":\"X\",\"location\":\"\"\x7d]".toList) ∧
    json_loads ("[\x7b\"name\":\"A\",\"title\":\"B\",\"company\":\"C\",\"email\":\"\",\"phone\":\"\",\"source\":\"X\",\"location\":\"\"\x7d]".toList)
      = some (Json.arr [Json.obj
          [(("name" : String), Json.str ("A")), (("title" : String), Json.str ("B")),
           (("company" : String), Json.str ("C")), (("email" : String), Json.str ("")),
           (("phone" : String), Json.str ("")), (("source" : String), Json.str ("X")),
           (("location" : String), Json.str (""))]]) :=
  ⟨(C5_bracket_recovery_bracket_free_prose _ _ _
      (by decide) (by decide) (by decide) (by decide)).2.1, rfl⟩

/-! ### Claim C6 -/

/-- Claim C6, counterexample: a successfully parsed reply whose lead omits
every field but the name is returned with those fields absent — the title
field is missing, not defaulted to the empty string. -/
theorem C6_counterexample_omitted_field_absent :
    ExtractContent true ("[\x7b\"name\":\"A\"\x7d]")
      = .ok (some (Json.arr [Json.obj [(("name" : String), Json.str ("A"))]]), [extractHeader]) ∧
    jsonLookup ("title") [(("name" : String), Json.str ("A"))] = none := ⟨rfl, rfl⟩

/-- Claim C6 as amended: whatever value the Extractor hands back is exactly
the value produced by the parsing stage — it is forwarded verbatim, with
no defaulting of omitted fields. -/
theorem C6_extractor_returns_parsed_value_verbatim
    (c : Bool) (response : String) (v : Json) (logs : List String)
    (h : ExtractContent c response = .ok (some v, logs)) :
    parsedLeads response.toList = some v :=
  (ExtractContent_ok_some h).1

/-- Claim C6 witness: the verbatim forwarding at a concrete one-lead reply. -/
theorem C6_extractor_verbatim_witness :
    parsedLeads ("[\x7b\"name\":\"A\"\x7d]".toList)
      = some (Json.arr [Json.obj [(("name" : String), Json.str ("A"))]]) :=
  C6_extractor_returns_parsed_value_verbatim true ("[\x7b\"name\":\"A\"\x7d]") _ _ rfl

/-! ### Claim C7 -/

/-- Claim C7: a blank query — empty or consisting only of whitespace — is
rejected with a 400 and the detail naming the empty-query constraint,
before any outbound call: the call list of the request is empty. -/
theorem C7_blank_query_400_no_external_calls
    (env : Env) (query : String) (world : World) (now : String)
    (hq : query = "" ∨ ∀ c ∈ query.toList, pyIsSpace c = true) :
    search env query world now
      = ⟨.error 400 ("Search query cannot be empty"), [], []⟩ := by
  have hb : query = "" ∨ pyStrip query = "" := by
    rcases hq with h | h
    · exact Or.inl h
    · exact Or.inr (pyStrip_all_space h)
  unfold search
  rw [if_pos hb]

/-- Claim C7 witness: a whitespace-only query at a fully configured
environment is still rejected with no calls made. -/
theorem C7_blank_query_witness :
    search ⟨some ("tk"), some ("gk")⟩ "   " ⟨some [], "x"⟩ "2026-01-01T00:00:00Z"
      = ⟨.error 400 ("Search query cannot be empty"), [], []⟩ :=
  C7_blank_query_400_no_external_calls _ _ _ _ (Or.inr (by decide))

/-! ### Claim C8 -/

/-- Claim C8, counterexample: the outcome with only the Tavily key missing is
identical — same status, same detail string, same logs — to the outcome
with only the Groq key missing, so the error message cannot name which
credential is missing. -/
theorem C8_counterexample_message_identical_for_both_keys :
    search ⟨none, some ("gk")⟩ "acme" ⟨some [], "x"⟩ "t"
      = search ⟨some ("tk"), none⟩ "acme" ⟨some [], "x"⟩ "t" := rfl

/-- Claim C8 as amended: with a non-blank query and either credential
missing (unset or empty), the request ends in a 500-equivalent error
before any network call — the call list is empty — and the fixed message
names both credential variables, without identifying the missing one. -/
theorem C8_missing_key_500_before_network_naming_both
    (env : Env) (query : String) (world : World) (now : String)
    (hq : ¬ (query = "" ∨ pyStrip query = ""))
    (hk : truthyKey env.tavily_api_key = false ∨ truthyKey env.model_api_key = false) :
    search env query world now
      = ⟨.error 500 (wrapMsg keysMissingMsg), [], [wrapMsg keysMissingMsg]⟩ ∧
    containsSub ("TAVILY_API_KEY".toList) (keysMissingMsg.toList) = true ∧
    containsSub ("GROQ_API_KEY".toList) (keysMissingMsg.toList) = true := by
  refine ⟨?_, by decide, by decide⟩
  unfold search
  rw [if_neg hq, if_pos (by rcases hk with h | h <;> simp [h])]

/-- Claim C8 witness: the amended behavior with the Tavily key unset. -/
theorem C8_missing_key_witness :
    search ⟨none, some ("gk")⟩ "acme" ⟨some [], "x"⟩ "t"
      = ⟨.error 500 (wrapMsg keysMissingMsg), [], [wrapMsg keysMissingMsg]⟩ ∧
    containsSub ("TAVILY_API_KEY".toList) (keysMissingMsg.toList) = true ∧
    containsSub ("GROQ_API_KEY".toList) (keysMissingMsg.toList) = true :=
  C8_missing_key_500_before_network_naming_both _ _ _ _ (by decide) (Or.inl rfl)

/-! ### Claim C9 -/

/-- Claim C9: a 200 envelope never carries an empty results list — an empty
or non-list Extractor value (including the None left by a swallowed parse
failure) is diverted to a 500 before the success branch. -/
theorem C9_success_response_has_nonempty_results
    (env : Env) (query : String) (world : World) (now : String)
    (body : SearchResponse) (h : (search env query world now).http = .ok body) :
    body.results ≠ [] := by
  obtain ⟨_, _, _, xs, elogs, hec, hadd⟩ := search_ok_elim h
  have hne : xs ≠ [] := by
    obtain ⟨_, htr, _⟩ := ExtractContent_ok_some hec
    intro hnil
    subst hnil
    simp [pyTruthy] at htr
  have hlen := addIdsFrom_ok_length xs 0 body.results hadd
  intro hnil
  rw [hnil] at hlen
  exact hne (List.eq_nil_of_length_eq_zero hlen.symm)

/-- Claim C9 witness: a concrete 200 response has a nonempty results list. -/
theorem C9_success_nonempty_witness :
    (⟨true, "acme", "2025-05-09T00:00:00Z",
        [Json.obj [(("name" : String), Json.str ("A")), (("id" : String), Json.str ("1"))]]⟩
      : SearchResponse).results ≠ [] :=
  C9_success_response_has_nonempty_results ⟨some ("tk"), some ("gk")⟩ "acme"
    ⟨some [], "[\x7b\"name\":\"A\"\x7d]"⟩ "t" _ rfl

/-! ### Claim C10 -/

/-- Claim C10: the id-assignment step is a pure frame extension — a lead
object that already has an id key is returned entirely unchanged (same
keys, same values, same order, same id), and one that lacks it is returned
with all its original pairs unchanged and in place, followed by exactly the
one appended id pair; positions in the results list match the Extractor
output. -/
theorem C10_id_assignment_frame
    (env : Env) (query : String) (world : World) (now : String)
    (body : SearchResponse) (xs : List Json) (elogs : List String)
    (h1 : ExtractContent (truthyKey env.model_api_key) world.llmReply
      = .ok (some (Json.arr xs), elogs))
    (h2 : (search env query world now).http = .ok body) :
    body.results.length = xs.length ∧
    ∀ (j : Nat) (fs : List (String × Json)), xs[j]? = some (Json.obj fs) →
      (jsonHasKey ("id") fs = true → body.results[j]? = some (Json.obj fs)) ∧
      (jsonHasKey ("id") fs = false →
        body.results[j]? = some (Json.obj
          (fs ++ [(("id" : String), Json.str (toString (j + 1)))]))) := by
  obtain ⟨_, _, _, xs2, elogs2, hec, hadd⟩ := search_ok_elim h2
  rw [h1] at hec
  have hxs : xs = xs2 := by
    have := hec
    simp only [Except.ok.injEq, Prod.mk.injEq, Option.some.injEq, Json.arr.injEq] at this
    exact this.1
  subst hxs
  refine ⟨addIdsFrom_ok_length xs 0 body.results hadd, ?_⟩
  intro j fs hj
  obtain ⟨l2, hstep, hout⟩ := addIdsFrom_ok_get xs 0 body.results hadd j (Json.obj fs) hj
  simp only [Nat.zero_add] at hstep
  constructor
  · intro hk
    simp only [addIdStep, hk, if_true] at hstep
    have he : Json.obj fs = l2 := by simpa using hstep
    rw [← he] at hout
    exact hout
  · intro hk
    simp only [addIdStep, hk] at hstep
    have he : Json.obj (fs ++ [(("id" : String), Json.str (toString (j + 1)))]) = l2 := by
      simpa using hstep
    rw [← he] at hout
    exact hout

/-- Claim C10 witness: a run whose first lead arrives with id 7 and second
without — the first passes through unchanged, the second keeps its pairs
and gains only the appended id. -/
theorem C10_id_assignment_witness :
    (⟨true, "acme", "2025-05-09T00:00:00Z",
        [Json.obj [(("id" : String), Json.str ("7")), (("name" : String), Json.str ("A"))],
         Json.obj [(("name" : String), Json.str ("B")), (("id" : String), Json.str ("2"))]]⟩
      : SearchResponse).results[0]?
      = some (Json.obj [(("id" : String), Json.str ("7")), (("name" : String), Json.str ("A"))]) ∧
    (⟨true, "acme", "2025-05-09T00:00:00Z",
        [Json.obj [(("id" : String), Json.str ("7")), (("name" : String), Json.str ("A"))],
         Json.obj [(("name" : String), Json.str ("B")), (("id" : String), Json.str ("2"))]]⟩
      : SearchResponse).results[1]?
      = some (Json.obj [(("name" : String), Json.str ("B")), (("id" : String), Json.str ("2"))]) :=
  have h := C10_id_assignment_frame ⟨some ("tk"), some ("gk")⟩ "acme"
    ⟨some [], "[\x7b\"id\":\"7\",\"name\":\"A\"\x7d,\x7b\"name\":\"B\"\x7d]"⟩ "t"
    ⟨true, "acme", "2025-05-09T00:00:00Z",
      [Json.obj [(("id" : String), Json.str ("7")), (("name" : String), Json.str ("A"))],
       Json.obj [(("name" : String), Json.str ("B")), (("id" : String), Json.str ("2"))]]⟩
    [Json.obj [(("id" : String), Json.str ("7")), (("name" : String), Json.str ("A"))],
     Json.obj [(("name" : String), Json.str ("B"))]]
    [extractHeader] rfl rfl
  ⟨(h.2 0 _ rfl).1 rfl, (h.2 1 _ rfl).2 rfl⟩
